import Mathlib

/-!
Shallow embedding of the terminal forms engine of the niceos-installer
repository: photon_installer/menu.py, photon_installer/textpane.py,
photon_installer/window.py and photon_installer/iso_config.py.

Python integers are modelled as Int (Nat where the source value is
manifestly non-negative), payload dictionaries as association lists,
exceptions as an explicit Except layer, the blocking key-read loops as
fueled recursion over an explicit list of key events, and Python callables
(menu-item handlers, window button callbacks) as oracle functions returning
either a value or a raised exception.
-/

/-- Python scalar values that appear in ActionResult payload dictionaries. -/
inductive PyVal where
  | bool : Bool → PyVal
  | int : Int → PyVal
  | str : String → PyVal
deriving DecidableEq

/-- Python truthiness of a payload value. -/
def PyVal.truthy : PyVal → Bool
  | .bool b => b
  | .int n => n != 0
  | .str s => s != ""

/-- A payload dictionary, modelled as an association list from string keys
to values (first binding wins, as a dict has unique keys). -/
abbrev Payload := List (String × PyVal)

/-- Key lookup in a payload dictionary. -/
def Payload.lookup : Payload → String → Option PyVal
  | [], _ => none
  | (k, v) :: rest, key => if k = key then some v else Payload.lookup rest key

/-- Python exceptions raised by the embedded code. -/
inductive PyExc where
  | valueError : String → PyExc
  | typeError : String → PyExc
  | nameError : String → PyExc
  | indexError : String → PyExc
deriving DecidableEq

/-- The message carried by an exception (what `str(e)` produces). -/
def PyExc.message : PyExc → String
  | .valueError m => m
  | .typeError m => m
  | .nameError m => m
  | .indexError m => m

/-- actionresult.py: `ActionResult(success, result)`; `result` is an optional
payload dictionary. -/
structure ActionResult where
  success : Bool
  result : Option Payload
deriving DecidableEq

/-- The guard idiom `ar.result and KEY in ar.result and ar.result[KEY]`:
a missing (None) or empty dictionary is falsy, otherwise the key must be
present and its value truthy. -/
def ActionResult.truthyKey (ar : ActionResult) (key : String) : Bool :=
  match ar.result with
  | none => false
  | some p => if p = [] then false else
      match Payload.lookup p key with
      | some v => v.truthy
      | none => false

/-- The guard idiom `ar.result and KEY in ar.result`. -/
def ActionResult.hasKeyGuarded (ar : ActionResult) (key : String) : Bool :=
  match ar.result with
  | none => false
  | some p => if p = [] then false else (Payload.lookup p key).isSome

/-- The unguarded membership test `KEY in r.result`: in Python this raises
TypeError when `r.result` is None (iterating NoneType). -/
def ActionResult.keyIn (ar : ActionResult) (key : String) : Except PyExc Bool :=
  match ar.result with
  | none => .error (.typeError "argument of type NoneType is not iterable")
  | some p => .ok (Payload.lookup p key).isSome

/-- Python list indexing `xs[i]` on a list of length n: a negative index is
taken from the end, an out-of-range index raises IndexError. -/
def pyIndex (n : Nat) (i : Int) : Except PyExc Nat :=
  let j := if i < 0 then i + n else i
  if 0 ≤ j ∧ j < (n : Int) then .ok j.toNat
  else .error (.indexError "list index out of range")

/-! ## Menu list state and navigation (menu.py lines 167-193) -/

/-- The mutable scroll state of the selectable-list widget:
`self.position` and `self.head_position` (both Python ints). -/
structure MenuState where
  position : Int
  head_position : Int
deriving DecidableEq

/-- menu.py lines 178-182: `self.position += n` followed by clamping into
`[0, len(self.items) - 1]`. -/
def Menu.clampPosition (numItems p : Int) : Int :=
  if p < 0 then 0
  else if numItems ≤ p then numItems - 1
  else p

/-- menu.py lines 184-187: two sequential corrections of `self.head_position`
after the position moved; first the below-window case
(`head = position - height + 1`), then the above-window case
(`head = position`). -/
def Menu.scrollHead (height p h : Int) : Int :=
  if p < (if h + height ≤ p then p - height + 1 else h) then p
  else (if h + height ≤ p then p - height + 1 else h)

/-- Menu.navigate (menu.py lines 167-193), with `numItems = len(self.items)`
and `height = self.height` as parameters. -/
def Menu.navigate (numItems height : Int) (s : MenuState) (n : Int) : MenuState :=
  ⟨Menu.clampPosition numItems (s.position + n),
   Menu.scrollHead height (Menu.clampPosition numItems (s.position + n)) s.head_position⟩

/-- A whole sequence of navigate calls. -/
def Menu.navigateSeq (numItems height : Int) (s : MenuState) (ds : List Int) : MenuState :=
  ds.foldl (Menu.navigate numItems height) s

/-- The spec's ListState invariant: `0 ≤ focusedIndex < itemCount`,
`scrollOffset ≤ focusedIndex ≤ scrollOffset + viewportHeight - 1`,
`scrollOffset ≥ 0`. -/
def ListStateInv (numItems height : Int) (s : MenuState) : Prop :=
  0 ≤ s.position ∧ s.position < numItems ∧
  s.head_position ≤ s.position ∧ s.position ≤ s.head_position + height - 1 ∧
  0 ≤ s.head_position

instance (numItems height : Int) (s : MenuState) : Decidable (ListStateInv numItems height s) :=
  inferInstanceAs (Decidable (0 ≤ s.position ∧ s.position < numItems ∧
    s.head_position ≤ s.position ∧ s.position ≤ s.head_position + height - 1 ∧
    0 ≤ s.head_position))

theorem Menu.navigate_preserves_inv (numItems height : Int)
    (hN : 1 ≤ numItems) (hH : 1 ≤ height) (s : MenuState) (n : Int)
    (hs : ListStateInv numItems height s) :
    ListStateInv numItems height (Menu.navigate numItems height s n) := by
  obtain ⟨h1, h2, h3, h4, h5⟩ := hs
  unfold Menu.navigate Menu.clampPosition Menu.scrollHead ListStateInv
  dsimp only
  split_ifs <;> constructor <;> omega

/-- C1: for every item count N ≥ 1 and viewport height H with 1 ≤ H ≤ N,
any sequence of Menu.navigate calls starting from a state satisfying the
ListState invariant ends in a state satisfying it: `0 ≤ position < N`,
`head_position ≤ position ≤ head_position + H - 1` and `head_position ≥ 0`
(navigate clamps the position into [0, N-1] and recomputes head_position as
position - H + 1 below the window and as position above it). -/
theorem menu_navigate_sequence_keeps_invariant (numItems height : Int)
    (hN : 1 ≤ numItems) (hH : 1 ≤ height) (hHN : height ≤ numItems)
    (s : MenuState) (hs : ListStateInv numItems height s) (ds : List Int) :
    ListStateInv numItems height (Menu.navigateSeq numItems height s ds) := by
  induction ds generalizing s with
  | nil => exact hs
  | cons d ds ih =>
      exact ih (Menu.navigate numItems height s d)
        (Menu.navigate_preserves_inv numItems height hN hH s d hs)

theorem menu_navigate_sequence_keeps_invariant_witness :
    ListStateInv 5 3 (Menu.navigateSeq 5 3 ⟨0, 0⟩ [2, -7, 9, 1, -2]) :=
  menu_navigate_sequence_keeps_invariant 5 3 (by decide) (by decide) (by decide)
    ⟨0, 0⟩ (by decide) [2, -7, 9, 1, -2]

/-! ## Wizard controller retreat (iso_config.py lines 296-330) -/

/-- The backward scan of IsoConfig.configure after a failure
(iso_config.py lines 325-326): starting from index j, decrement while the
flag `items[index][1]` is False.  The Python loop also stops when the index
reaches -1 and line 327 resets it to 0; scanning from index 0 lands on 0 in
both cases, which the base case captures. -/
def IsoConfig.scanBack (flags : List Bool) : Nat → Nat
  | 0 => 0
  | j + 1 => if flags.getD (j + 1) false = true then j + 1 else IsoConfig.scanBack flags j

/-- The full failure transition of the cursor (iso_config.py lines 324-327):
`index -= 1`, then the backward scan, then the clamp of -1 to 0. -/
def IsoConfig.retreatIndex (flags : List Bool) (k : Nat) : Nat :=
  match k with
  | 0 => 0
  | j + 1 => IsoConfig.scanBack flags j

theorem IsoConfig.scanBack_le (flags : List Bool) (j : Nat) :
    IsoConfig.scanBack flags j ≤ j := by
  induction j with
  | zero => simp [IsoConfig.scanBack]
  | succ j ih =>
      unfold IsoConfig.scanBack
      split <;> omega

theorem IsoConfig.scanBack_ge (flags : List Bool) (j i : Nat)
    (hij : i ≤ j) (hi : flags.getD i false = true) :
    i ≤ IsoConfig.scanBack flags j := by
  induction j with
  | zero => omega
  | succ j ih =>
      unfold IsoConfig.scanBack
      split
      · omega
      · rename_i hflag
        rcases Nat.lt_or_ge i (j + 1) with h | h
        · exact ih (by omega)
        · exfalso
          have : i = j + 1 := by omega
          rw [this] at hi
          exact hflag hi

theorem IsoConfig.scanBack_flag (flags : List Bool) (j : Nat) :
    flags.getD (IsoConfig.scanBack flags j) false = true ∨
      IsoConfig.scanBack flags j = 0 := by
  induction j with
  | zero => right; rfl
  | succ j ih =>
      unfold IsoConfig.scanBack
      split
      · left; assumption
      · exact ih

/-- C2: on a failure at cursor index k, the controller lands on the greatest
index j ≤ k-1 whose retreat flag is true, or on 0 when no such index exists;
in particular with flags [false, true, true] a failure at index 2 lands on
index 1. -/
theorem configure_retreat_greatest_flagged (flags : List Bool) (k : Nat) :
    (∀ i, i < k → flags.getD i false = true → i ≤ IsoConfig.retreatIndex flags k) ∧
    ((∃ i, i < k ∧ flags.getD i false = true) →
        IsoConfig.retreatIndex flags k < k ∧
        flags.getD (IsoConfig.retreatIndex flags k) false = true) ∧
    ((¬ ∃ i, i < k ∧ flags.getD i false = true) → IsoConfig.retreatIndex flags k = 0) ∧
    IsoConfig.retreatIndex [false, true, true] 2 = 1 := by
  refine ⟨?_, ?_, ?_, by decide⟩
  · intro i hik hi
    match k with
    | 0 => omega
    | j + 1 => exact IsoConfig.scanBack_ge flags j i (by omega) hi
  · rintro ⟨i, hik, hi⟩
    match k with
    | 0 => omega
    | j + 1 =>
        have hge := IsoConfig.scanBack_ge flags j i (by omega) hi
        have hle := IsoConfig.scanBack_le flags j
        rcases IsoConfig.scanBack_flag flags j with h | h
        · exact ⟨by simpa [IsoConfig.retreatIndex] using by omega, h⟩
        · have : i = 0 := by omega
          subst this
          rw [IsoConfig.retreatIndex, h] at *
          exact ⟨by omega, by rw [h] at hge ⊢; simpa using hi⟩
  · intro hnone
    match k with
    | 0 => rfl
    | j + 1 =>
        rcases IsoConfig.scanBack_flag flags j with h | h
        · exfalso
          exact hnone ⟨IsoConfig.scanBack flags j,
            by have := IsoConfig.scanBack_le flags j; omega, h⟩
        · simpa [IsoConfig.retreatIndex] using h

theorem configure_retreat_greatest_flagged_witness :
    IsoConfig.retreatIndex [false, true, true] 2 < 2 ∧
    [false, true, true].getD (IsoConfig.retreatIndex [false, true, true] 2) false = true :=
  (configure_retreat_greatest_flagged [false, true, true] 2).2.1 ⟨1, by decide, by decide⟩

/-! ## Scrollbar thumb sizing (menu.py lines 99-107, textpane.py lines 62-68) -/

/-- Python 3 `int(round(p / q))` for non-negative integers p, q (q > 0):
round half to even on the exact quotient.  For the small operand sizes in
the widgets the double-precision quotient rounds to the same integer as the
exact rational. -/
def roundHalfEven (p q : Nat) : Nat :=
  let d := p / q
  let r := p % q
  if 2 * r < q then d
  else if q < 2 * r then d + 1
  else if d % 2 = 0 then d else d + 1

/-- Menu.__init__ lines 100-105: the scrollbar thumb size
`filled = int(round(height * height / float(num_items)))`, raised to 1 when
it rounds to 0, then the two boundary-correction passes (the `for i in
[1, 2]` loop, unrolled).  Python ints are signed, so the running value is an
Int. -/
def Menu.filledCalc (numItems height : Nat) : Int :=
  let f0 : Int := (roundHalfEven (height * height) numItems : Nat)
  let f1 : Int := if f0 = 0 then f0 + 1 else f0
  let f2 : Int := if 1 ≤ (numItems : Int) - height ∧ (height : Int) - f1 = 0 then f1 - 1 else f1
  let f3 : Int := if 2 ≤ (numItems : Int) - height ∧ (height : Int) - f2 = 1 then f2 - 1 else f2
  f3

theorem roundHalfEven_bounds (p q : Nat) :
    p / q ≤ roundHalfEven p q ∧ roundHalfEven p q ≤ p / q + 1 := by
  unfold roundHalfEven
  dsimp only
  split_ifs <;> omega

/-- C3 counterexample: with N = 2 items and viewport height H = 1 a
scrollbar is shown (N > H ≥ 1), but the computed thumb size is 0, violating
the claimed bound 1 ≤ f. -/
theorem scroll_thumb_claim_fails_at_two_one :
    Menu.filledCalc 2 1 = 0 ∧ ¬ (1 ≤ Menu.filledCalc 2 1) := by
  decide

/-- C3 amended: whenever a scrollbar is shown (N > H ≥ 1) the thumb size f
satisfies f ≤ H, and the claimed lower bound 1 ≤ f holds whenever H ≥ 3;
for H = 2 the correction passes can drive f to 0 (still ≥ 0), and for H = 1
even to -1. -/
theorem scroll_thumb_bounds_amended (numItems height : Nat)
    (hH : 1 ≤ height) (hN : height < numItems) :
    Menu.filledCalc numItems height ≤ height ∧
    (2 ≤ height → 0 ≤ Menu.filledCalc numItems height) ∧
    (3 ≤ height → 1 ≤ Menu.filledCalc numItems height) := by
  have hdiv : height * height / numItems < height := by
    have hmul : height * height < height * numItems := by nlinarith
    exact (Nat.div_lt_iff_lt_mul (by omega)).mpr hmul
  have hb := roundHalfEven_bounds (height * height) numItems
  unfold Menu.filledCalc
  dsimp only
  split_ifs <;> exact ⟨by omega, fun h2 => by omega, fun h3 => by omega⟩

theorem scroll_thumb_bounds_amended_witness :
    Menu.filledCalc 7 3 ≤ 3 ∧ 1 ≤ Menu.filledCalc 7 3 :=
  ⟨(scroll_thumb_bounds_amended 7 3 (by decide) (by decide)).1,
   (scroll_thumb_bounds_amended 7 3 (by decide) (by decide)).2.2 (by decide)⟩

/-! ## Text pane (textpane.py) -/

/-- The whitespace characters stripped by Python str.strip / str.lstrip. -/
def isPySpace (c : Char) : Bool :=
  c == ' ' || c == '\t' || c == '\n' || c == '\r' || c == '\x0b' || c == '\x0c'

/-- Python str.lstrip(). -/
def pyLStrip (l : List Char) : List Char := l.dropWhile isPySpace

/-- Python str.strip(). -/
def pyStrip (l : List Char) : List Char :=
  ((l.dropWhile isPySpace).reverse.dropWhile isPySpace).reverse

/-- Python str.expandtabs(tabstop): every tab is replaced by spaces up to
the next tab stop; a newline or carriage return resets the column. -/
def expandTabs (tabstop : Nat) : List Char → Nat → List Char
  | [], _ => []
  | c :: rest, col =>
    if c = '\t' then
      List.replicate (tabstop - col % tabstop) ' ' ++
        expandTabs tabstop rest (col + (tabstop - col % tabstop))
    else if c = '\n' ∨ c = '\r' then c :: expandTabs tabstop rest 0
    else c :: expandTabs tabstop rest (col + 1)

/-- textpane.py lines 112-113: move the separator index left while neither
the character before it nor the one at it is a space. -/
def TextPane.sepSearch (line : List Char) : Nat → Nat
  | 0 => 0
  | si + 1 =>
    if line.getD si ' ' ≠ ' ' ∧ line.getD (si + 1) ' ' ≠ ' ' then
      TextPane.sepSearch line si
    else si + 1

/-- textpane.py lines 110-119: the wrapping while-loop plus the final
append; each emitted segment is re-indented and padded to
`actual_line_width`.  The recursion is fueled by the initial line length:
every iteration drops at least one character whenever `actual ≥ 1`, which
holds at every call site (`actual = max(line_width - indent, 1)`), so the
fuel is never exhausted there. -/
def TextPane.wrapLoop (indent actual : Nat) : Nat → List Char → List (List Char)
  | 0, line =>
      [List.replicate indent ' ' ++ line ++ List.replicate (actual - line.length) ' ']
  | fuel + 1, line =>
    if actual < line.length then
      let si := TextPane.sepSearch line actual
      let cur := if 0 < si then si else actual
      let currLine := line.take cur
      (List.replicate indent ' ' ++ currLine ++
          List.replicate (actual - currLine.length) ' ')
        :: TextPane.wrapLoop indent actual fuel (pyStrip (line.drop cur))
    else
      [List.replicate indent ' ' ++ line ++ List.replicate (actual - line.length) ' ']

/-- textpane.py lines 98-119, one source line: decode as latin1 (which
never fails), expand tabs, measure the leading-whitespace indent, strip,
then wrap.  `actual_line_width = max(line_width - indent, 1)`. -/
def TextPane.processLine (lineWidth : Int) (raw : List Char) : List (List Char) :=
  let line := expandTabs 8 raw 0
  let indent := line.length - (pyLStrip line).length
  let actual := (max (lineWidth - indent) 1).toNat
  let stripped := pyStrip line
  TextPane.wrapLoop indent actual stripped.length stripped

/-- TextPane.read_file (textpane.py lines 96-123): wrap every line of the
file in order; an empty result is replaced by one line of `line_width`
spaces (Python `" " * line_width`, empty for a non-positive width). -/
def TextPane.read_file (file : List (List Char)) (lineWidth : Int) : List (List Char) :=
  let lines := (file.map (TextPane.processLine lineWidth)).flatten
  if lines = [] then [List.replicate lineWidth.toNat ' '] else lines

/-- textpane.py lines 63-68: the text-pane scrollbar thumb size, same
formula as the menu but guarded for an empty line list. -/
def TextPane.filledCalc (numItems : Nat) (textHeight : Int) : Int :=
  let f0 : Int :=
    if 0 < numItems then (roundHalfEven (textHeight * textHeight).toNat numItems : Nat)
    else 0
  let f1 : Int := if f0 = 0 ∧ 0 < numItems then 1 else f0
  let f2 : Int := if 1 ≤ (numItems : Int) - textHeight ∧ textHeight - f1 = 0 then f1 - 1 else f1
  let f3 : Int := if 2 ≤ (numItems : Int) - textHeight ∧ textHeight - f2 = 1 then f2 - 1 else f2
  f3

/-- The module-level names bound by the import statements of textpane.py
(lines 8-11): `import curses`, `import logging`,
`from actionresult import ActionResult`, `from action import Action`.
The module never imports os. -/
def textpaneModuleNames : List String := ["curses", "logging", "ActionResult", "Action"]

/-- Python name resolution inside textpane.py: evaluating a global name the
module never bound (and that is not a builtin) raises NameError. -/
def textpaneLookupName (n : String) : Except PyExc Unit :=
  if n ∈ textpaneModuleNames then .ok ()
  else .error (.nameError ("name " ++ n ++ " is not defined"))

/-- Whether the text_file_path argument satisfies isinstance(path, str). -/
inductive PyStrArg where
  | str : String → PyStrArg
  | nonStr : PyStrArg
deriving DecidableEq

/-- The fields TextPane.__init__ would assign before creating its curses
window. -/
structure TextPaneFields where
  head_position : Int
  menu_position : Int
  lines : List (List Char)
  num_items : Nat
  show_scroll : Bool
  filled : Int
  width : Int
  text_height : Int
deriving DecidableEq

/-- TextPane.__init__ (textpane.py lines 15-83), validations in source
order.  Evaluating `os.path.isfile(text_file_path)` first resolves the
global name `os`, which textpane.py never imports, so for every string path
a NameError is raised there — before the file is read and before any
curses surface exists.  The later branches model the rest of the
constructor (isFile stands for the os.path.isfile oracle, menuOk for the
menu_items shape check, file for the text file contents). -/
def TextPane.init (starty maxx width height : Int) (path : PyStrArg)
    (file : List (List Char)) (isFile : Bool) (menuOk : Bool) :
    Except PyExc TextPaneFields :=
  if ¬ (0 ≤ starty ∧ 0 < maxx) then
    .error (.valueError "starty must be non-negative and maxx positive")
  else if ¬ (0 < width ∧ 0 < height) then
    .error (.valueError "width and height must be positive")
  else
    match path with
    | .nonStr => .error (.valueError "text_file_path must be an existing file")
    | .str _ =>
      match textpaneLookupName "os" with
      | .error e => .error e
      | .ok _ =>
        if ¬ isFile then
          .error (.valueError "text_file_path must be an existing file")
        else if ¬ menuOk then
          .error (.valueError "menu_items must be a list of tuples")
        else
          let text_height := height - 2
          let lines := TextPane.read_file file (width - 3)
          let num_items := lines.length
          .ok { head_position := 0, menu_position := 0, lines := lines,
                num_items := num_items,
                show_scroll := decide (text_height < (num_items : Int)),
                filled := TextPane.filledCalc num_items text_height,
                width := width, text_height := text_height }

/-- C8: for every string path (once the earlier integer validations pass),
TextPane.__init__ raises NameError while evaluating `os.path.isfile`
because textpane.py never imports os, before any surface is created or any
file is read; and for a string path the constructor never returns an
instance. -/
theorem textpane_init_raises_nameError (starty maxx width height : Int)
    (s : String) (file : List (List Char)) (isFile menuOk : Bool) :
    ((0 ≤ starty ∧ 0 < maxx ∧ 0 < width ∧ 0 < height) →
      TextPane.init starty maxx width height (.str s) file isFile menuOk =
        .error (.nameError "name os is not defined")) ∧
    (∀ fields, TextPane.init starty maxx width height (.str s) file isFile menuOk ≠
        .ok fields) := by
  constructor
  · rintro ⟨h1, h2, h3, h4⟩
    unfold TextPane.init
    rw [if_neg (by omega), if_neg (by omega)]
    rfl
  · intro fields
    have hos : textpaneLookupName "os" = .error (.nameError "name os is not defined") := rfl
    unfold TextPane.init
    split_ifs <;> simp [hos]

theorem textpane_init_raises_nameError_witness :
    TextPane.init 0 80 40 10 (.str "eula.txt") [] true true =
      .error (.nameError "name os is not defined") :=
  (textpane_init_raises_nameError 0 80 40 10 "eula.txt" [] true true).1
    (by refine ⟨by decide, by decide, by decide, by decide⟩)

/-- C6: what read_file actually does on an empty file is exactly what the
claim describes — one all-spaces line padded to the text width
(`line_width = width - 3`) — but the constructor raises NameError (the
missing os import, see C8) before the file is ever read, so a TextPane over
an empty source file can never be constructed, let alone run. -/
theorem textpane_empty_file_one_blank_line_but_init_raises :
    (∀ lineWidth : Int,
        TextPane.read_file [] lineWidth = [List.replicate lineWidth.toNat ' ']) ∧
    TextPane.init 0 80 40 10 (.str "empty.txt") [] true true =
      .error (.nameError "name os is not defined") := by
  exact ⟨fun lineWidth => rfl, rfl⟩

/-! ## Key events and blocking loops -/

/-- The keys the widget loops dispatch on (curses key codes). -/
inductive TKey where
  | enter | space | tab | up | down | left | right | npage | ppage | home
  | unknown : Nat → TKey
deriving DecidableEq

/-- Result of a fueled embedding of a blocking loop: a returned value, an
exception escaping the loop body, or `blocked` when the modelled key/panel
event stream is exhausted and the real loop would still be blocking on
input. -/
inductive LoopOut (α : Type) where
  | ret : α → LoopOut α
  | raise : PyExc → LoopOut α
  | blocked : LoopOut α
deriving DecidableEq

/-! ## Menu event loop (menu.py lines 286-374) -/

/-- The configuration flags of a Menu fixed by its constructor. -/
structure MenuCfg where
  numItems : Int
  height : Int
  selector_menu : Bool
  can_navigate_outside : Bool
  tab_enable : Bool
  save_sel : Bool

/-- The argument a menu item handler receives: the selected-items set in
selector mode (menu.py line 305), otherwise the item payload
`items[i][2]` (line 307, identified here by the item index). -/
inductive MenuArg where
  | selectedSet : List Nat → MenuArg
  | itemPayload : Nat → MenuArg
deriving DecidableEq

/-- Mutable state of Menu.do_action: scroll state plus the selected set. -/
structure MenuRun where
  st : MenuState
  selected : List Nat
deriving DecidableEq

/-- menu.py lines 314-322: Space toggles membership of the focused index in
the selected set. -/
def Menu.toggleSelected (sel : List Nat) (p : Nat) : List Nat :=
  if p ∈ sel then sel.erase p else p :: sel

/-- The while-loop of Menu.do_action (menu.py lines 297-370), fueled,
consuming an explicit key stream and logging every handler invocation
(item index and argument).  After an Enter whose handler result is not a
success, the remaining key tests of the iteration cannot match Enter, so
the loop simply continues, which the recursive call models. -/
def Menu.doActionLoop (cfg : MenuCfg)
    (handler : Nat → MenuArg → Except PyExc ActionResult) :
    Nat → MenuRun → List TKey → List (Nat × MenuArg) →
    LoopOut ActionResult × List (Nat × MenuArg)
  | 0, _, _, log => (.blocked, log)
  | _ + 1, _, [], log => (.blocked, log)
  | fuel + 1, r, key :: keys, log =>
    if key = TKey.enter then
      let pos := r.st.position.toNat
      let arg := if cfg.selector_menu then MenuArg.selectedSet r.selected
                 else MenuArg.itemPayload pos
      match handler pos arg with
      | .error e => (.raise e, log ++ [(pos, arg)])
      | .ok result =>
        if result.success then (.ret result, log ++ [(pos, arg)])
        else Menu.doActionLoop cfg handler fuel r keys (log ++ [(pos, arg)])
    else if key = TKey.space ∧ cfg.selector_menu then
      Menu.doActionLoop cfg handler fuel
        { r with selected := Menu.toggleSelected r.selected r.st.position.toNat } keys log
    else if key = TKey.tab ∧ cfg.can_navigate_outside then
      if ¬ cfg.tab_enable then Menu.doActionLoop cfg handler fuel r keys log
      else if cfg.save_sel then
        (.ret ⟨false, some [("diskIndex", .int r.st.position)]⟩, log)
      else (.ret ⟨false, none⟩, log)
    else if key = TKey.up ∨ key = TKey.left then
      if ¬ cfg.tab_enable ∧ key = TKey.left then
        if cfg.save_sel then
          (.ret ⟨false, some [("diskIndex", .int r.st.position),
                              ("direction", .int (-1))]⟩, log)
        else
          let pos := r.st.position.toNat
          let arg := if cfg.selector_menu then MenuArg.selectedSet r.selected
                     else MenuArg.itemPayload pos
          match handler pos arg with
          | .error e => (.raise e, log ++ [(pos, arg)])
          | .ok _ => (.ret ⟨false, some [("direction", .int (-1))]⟩, log ++ [(pos, arg)])
      else
        Menu.doActionLoop cfg handler fuel
          { r with st := Menu.navigate cfg.numItems cfg.height r.st (-1) } keys log
    else if key = TKey.down ∨ key = TKey.right then
      if ¬ cfg.tab_enable ∧ key = TKey.right then
        if cfg.save_sel then
          (.ret ⟨false, some [("diskIndex", .int r.st.position),
                              ("direction", .int 1)]⟩, log)
        else (.ret ⟨false, some [("direction", .int 1)]⟩, log)
      else
        Menu.doActionLoop cfg handler fuel
          { r with st := Menu.navigate cfg.numItems cfg.height r.st 1 } keys log
    else if key = TKey.npage then
      Menu.doActionLoop cfg handler fuel
        { r with st := Menu.navigate cfg.numItems cfg.height r.st cfg.height } keys log
    else if key = TKey.ppage then
      Menu.doActionLoop cfg handler fuel
        { r with st := Menu.navigate cfg.numItems cfg.height r.st (-cfg.height) } keys log
    else if key = TKey.home then
      Menu.doActionLoop cfg handler fuel
        { r with st := Menu.navigate cfg.numItems cfg.height r.st (-r.st.position) } keys log
    else Menu.doActionLoop cfg handler fuel r keys log

/-- Menu.do_action (menu.py lines 286-374): the loop body runs inside
try/except Exception; a raised exception becomes
`ActionResult(False, {error: str(e)})`. -/
def Menu.do_action (cfg : MenuCfg)
    (handler : Nat → MenuArg → Except PyExc ActionResult)
    (fuel : Nat) (r : MenuRun) (keys : List TKey) :
    LoopOut ActionResult × List (Nat × MenuArg) :=
  match Menu.doActionLoop cfg handler fuel r keys [] with
  | (.raise e, log) => (.ret ⟨false, some [("error", .str e.message)]⟩, log)
  | out => out

/-- C9: in Menu.do_action with tab_enable = false and save_sel = false, the
Left arrow invokes the focused item's handler (passing the selected set in
multi-select mode, the item payload otherwise), discards the handler's
result, and returns Outcome(false, direction = -1); the Right arrow
returns Outcome(false, direction = +1) without invoking any handler. -/
theorem menu_left_invokes_handler_right_does_not (cfg : MenuCfg)
    (handler : Nat → MenuArg → Except PyExc ActionResult)
    (fuel : Nat) (r : MenuRun) (keys : List TKey) (res : ActionResult)
    (htab : cfg.tab_enable = false) (hsave : cfg.save_sel = false)
    (hok : handler r.st.position.toNat
        (if cfg.selector_menu then MenuArg.selectedSet r.selected
         else MenuArg.itemPayload r.st.position.toNat) = .ok res) :
    Menu.do_action cfg handler (fuel + 1) r (TKey.left :: keys) =
      (.ret ⟨false, some [("direction", .int (-1))]⟩,
       [(r.st.position.toNat,
         if cfg.selector_menu then MenuArg.selectedSet r.selected
         else MenuArg.itemPayload r.st.position.toNat)]) ∧
    Menu.do_action cfg handler (fuel + 1) r (TKey.right :: keys) =
      (.ret ⟨false, some [("direction", .int 1)]⟩, []) := by
  constructor
  · unfold Menu.do_action Menu.doActionLoop
    simp [htab, hsave, hok]
  · unfold Menu.do_action Menu.doActionLoop
    simp [htab, hsave]

theorem menu_left_invokes_handler_right_does_not_witness :
    Menu.do_action ⟨3, 3, false, true, false, false⟩ (fun _ _ => .ok ⟨true, none⟩)
        1 ⟨⟨1, 0⟩, []⟩ [TKey.left] =
      (.ret ⟨false, some [("direction", .int (-1))]⟩, [(1, MenuArg.itemPayload 1)]) ∧
    Menu.do_action ⟨3, 3, false, true, false, false⟩ (fun _ _ => .ok ⟨true, none⟩)
        1 ⟨⟨1, 0⟩, []⟩ [TKey.right] =
      (.ret ⟨false, some [("direction", .int 1)]⟩, []) :=
  menu_left_invokes_handler_right_does_not ⟨3, 3, false, true, false, false⟩
    (fun _ _ => .ok ⟨true, none⟩) 0 ⟨⟨1, 0⟩, []⟩ [] ⟨true, none⟩ rfl rfl rfl

/-! ## TextPane event loop (textpane.py lines 252-294) -/

/-- Static data of a TextPane used by its do_action loop. -/
structure TPaneCfg where
  numLines : Nat
  text_height : Int
  show_scroll : Bool
  numMenu : Nat

/-- TextPane.navigate (textpane.py lines 129-146): scroll the text head
position, only when a scrollbar is shown. -/
def TextPane.navigate (cfg : TPaneCfg) (head n : Int) : Int :=
  if cfg.show_scroll then
    let h := head + n
    if h < 0 then 0
    else if (cfg.numLines : Int) - cfg.text_height + 1 < h then
      (cfg.numLines : Int) - cfg.text_height + 1
    else h
  else head

/-- TextPane.navigate_menu (textpane.py lines 148-164): move the action-row
focus, clamped into the menu-item range. -/
def TextPane.navigate_menu (cfg : TPaneCfg) (mp n : Int) : Int :=
  let m := mp + n
  if m < 0 then 0
  else if (cfg.numMenu : Int) ≤ m then (cfg.numMenu : Int) - 1
  else m

/-- The while-loop of TextPane.do_action (textpane.py lines 263-290),
fueled: Enter hides the pane, invokes the focused action-row handler
`menu_items[menu_position][1]()` and returns its result unchecked; Up/Down
and paging scroll the text; Left/Right move the action-row focus; Home
resets the head position. -/
def TextPane.doActionLoop (cfg : TPaneCfg)
    (handler : Nat → Except PyExc ActionResult) :
    Nat → Int → Int → List TKey → LoopOut ActionResult
  | 0, _, _, _ => .blocked
  | _ + 1, _, _, [] => .blocked
  | fuel + 1, head, mp, key :: keys =>
    if key = TKey.enter then
      match pyIndex cfg.numMenu mp with
      | .error e => .raise e
      | .ok i =>
        match handler i with
        | .error e => .raise e
        | .ok result => .ret result
    else if key = TKey.up then
      TextPane.doActionLoop cfg handler fuel (TextPane.navigate cfg head (-1)) mp keys
    else if key = TKey.down then
      TextPane.doActionLoop cfg handler fuel (TextPane.navigate cfg head 1) mp keys
    else if key = TKey.left then
      TextPane.doActionLoop cfg handler fuel head (TextPane.navigate_menu cfg mp 1) keys
    else if key = TKey.right then
      TextPane.doActionLoop cfg handler fuel head (TextPane.navigate_menu cfg mp (-1)) keys
    else if key = TKey.npage then
      TextPane.doActionLoop cfg handler fuel
        (TextPane.navigate cfg head cfg.text_height) mp keys
    else if key = TKey.ppage then
      TextPane.doActionLoop cfg handler fuel
        (TextPane.navigate cfg head (-cfg.text_height)) mp keys
    else if key = TKey.home then
      TextPane.doActionLoop cfg handler fuel 0 mp keys
    else TextPane.doActionLoop cfg handler fuel head mp keys

/-- TextPane.do_action (textpane.py lines 252-294): the loop body runs
inside try/except Exception; a raised exception becomes
`ActionResult(False, {error: str(e)})`. -/
def TextPane.do_action (cfg : TPaneCfg)
    (handler : Nat → Except PyExc ActionResult)
    (fuel : Nat) (head mp : Int) (keys : List TKey) : LoopOut ActionResult :=
  match TextPane.doActionLoop cfg handler fuel head mp keys with
  | .raise e => .ret ⟨false, some [("error", .str e.message)]⟩
  | out => out

/-! ## Window (window.py) -/

/-- Configuration of a Window relevant to do_action and update_menu. -/
structure WinCfg where
  can_go_back : Bool
  can_go_next : Bool
  tab_enabled : Bool
  read_text : Bool
  numItems : Nat
  hasHelper : Bool
  hasPanel : Bool

/-- Observable calls logged by the Window embedding: button item
invocations `items[i][1]()`, `menu_helper(params)` calls, and
`action_panel.navigate(n)` calls. -/
inductive WEv where
  | invoke : Nat → WEv
  | helperCall : PyVal → WEv
  | panelNav : Int → WEv
deriving DecidableEq

/-- How many times item i has been invoked so far; fed to the callback
oracle as an ordinal, so a callback may return different results on
successive invocations, as a Python callable can. -/
def invokeCount (log : List WEv) (i : Nat) : Nat :=
  (log.filter (fun e => decide (e = WEv.invoke i))).length

/-- The position update of Window.refresh (window.py lines 398-411):
`position += n`, clamping that depends on can_go_back, then the special
case of no items and no next button. -/
def Window.refreshPos (cfg : WinCfg) (pos n : Int) : Int :=
  let p := pos + n
  let q :=
    if cfg.can_go_back then
      if p < 0 then 0
      else if cfg.numItems ≠ 0 ∧ (cfg.numItems : Int) < p then (cfg.numItems : Int)
      else p
    else
      if p < 0 then 0
      else if cfg.numItems ≠ 0 ∧ (cfg.numItems : Int) ≤ p then (cfg.numItems : Int) - 1
      else p
  if cfg.numItems = 0 ∧ ¬ cfg.can_go_next then 0 else q

/-- Using a payload value as the integer argument of refresh: a Python bool
is an int; a string raises TypeError when added to the position. -/
def PyVal.asInt : PyVal → Except PyExc Int
  | .bool b => .ok (if b then 1 else 0)
  | .int n => .ok n
  | .str _ => .error (.typeError "unsupported operand type for position update")

/-- Fetch `ar.result[key]` (meaningful once the guarded membership test
succeeded; the default is never reached then). -/
def ActionResult.getKey (ar : ActionResult) (key : String) : PyVal :=
  (Payload.lookup (ar.result.getD []) key).getD (.int 0)

/-- The body of Window.update_menu (window.py lines 178-217) before its
exception handler.  `.ok none` models Python falling off the end of the
function and returning None, which happens when the invoked callback fails
without a truthy goBack entry; a callback failure whose result is None
raises TypeError at the `goBack in result.result` test. -/
def Window.updateMenuBody (cfg : WinCfg) (cb : Nat → Nat → Except PyExc ActionResult)
    (pos : Int) (ar : ActionResult) (log : List WEv) :
    Except PyExc (Option ActionResult) × List WEv :=
  if ar.truthyKey "goNext" then (.ok (some ⟨true, none⟩), log)
  else if pos = 0 then (.ok (some ⟨false, none⟩), log)
  else
    let log2 :=
      if ar.hasKeyGuarded "diskIndex" ∧ cfg.hasHelper then
        log ++ [WEv.helperCall (ar.getKey "diskIndex")]
      else log
    match pyIndex cfg.numItems (pos - 1) with
    | .error e => (.error e, log2)
    | .ok i =>
      match cb i (invokeCount log2 i) with
      | .error e => (.error e, log2 ++ [WEv.invoke i])
      | .ok result =>
        if result.success then (.ok (some result), log2 ++ [WEv.invoke i])
        else
          match result.result with
          | none => (.error (.typeError "argument of type NoneType is not iterable"),
                     log2 ++ [WEv.invoke i])
          | some p =>
            match Payload.lookup p "goBack" with
            | some v =>
              if v.truthy then (.ok (some ⟨false, none⟩), log2 ++ [WEv.invoke i])
              else (.ok none, log2 ++ [WEv.invoke i])
            | none => (.ok none, log2 ++ [WEv.invoke i])

/-- Window.update_menu (window.py lines 165-221): the body plus its own
try/except converting an exception to ActionResult(False, {error}). -/
def Window.update_menu (cfg : WinCfg) (cb : Nat → Nat → Except PyExc ActionResult)
    (pos : Int) (ar : ActionResult) (log : List WEv) :
    Option ActionResult × List WEv :=
  match Window.updateMenuBody cfg cb pos ar log with
  | (.error e, log2) => (some ⟨false, some [("error", .str e.message)]⟩, log2)
  | (.ok r, log2) => (r, log2)

/-- Window.show_window sets position to 1 when can_go_next (window.py lines
477-478); do_action then calls refresh(0, ...) (lines 235-238). -/
def Window.preamble (cfg : WinCfg) (pos0 : Int) : Int :=
  Window.refreshPos cfg (if cfg.can_go_next then 1 else pos0) 0

/-- One iteration of the while-loop body of Window.do_action (window.py
lines 274-380).  `pos` is self.position, `ar` the current action_result,
`panel` the stream of results successive calls of the embedded panel's
do_action would produce, `keys` the stream of contentwin.getch keys.
`.inl` carries a loop exit (return, raise, or blocked on an exhausted
stream), `.inr` the updated state of a continuing iteration.  If `ar` were
a success the Python loop would exit and do_action would fall off its end
returning None, which `.ret none` models. -/
def Window.loopStep (cfg : WinCfg) (cb : Nat → Nat → Except PyExc ActionResult)
    (pos : Int) (ar : ActionResult) (panel : List (Except PyExc ActionResult))
    (keys : List TKey) (log : List WEv) :
    (LoopOut (Option ActionResult) × List WEv) ⊕
      (Int × ActionResult × List (Except PyExc ActionResult) × List TKey × List WEv) :=
  if ar.success then .inl (.ret none, log)
  else if cfg.read_text then
    match panel with
    | [] => .inl (.blocked, log)
    | .error e :: _ => .inl (.raise e, log)
    | .ok ar2 :: panelRest =>
      if ar2.success then
        if cfg.numItems ≠ 0 then
          let um := Window.update_menu cfg cb pos ar2 log
          .inl (.ret um.1, um.2)
        else .inl (.ret (some ar2), log)
      else if ar2.truthyKey "goBack" then .inl (.ret (some ar2), log)
      else if ar2.hasKeyGuarded "direction" then
        match (ar2.getKey "direction").asInt with
        | .error e => .inl (.raise e, log)
        | .ok d => .inr (Window.refreshPos cfg pos d, ar2, panelRest, keys, log)
      else .inr (pos, ar2, panelRest, keys, log)
  else
    match keys with
    | [] => .inl (.blocked, log)
    | key :: keyRest =>
      if key = TKey.enter then
        if pos = 0 then .inl (.ret (some ⟨false, none⟩), log)
        else
          let log2 :=
            if ar.hasKeyGuarded "diskIndex" ∧ cfg.hasHelper then
              log ++ [WEv.helperCall (ar.getKey "diskIndex")]
            else log
          match pyIndex cfg.numItems (pos - 1) with
          | .error e => .inl (.raise e, log2)
          | .ok i =>
            match cb i (invokeCount log2 i) with
            | .error e => .inl (.raise e, log2 ++ [WEv.invoke i])
            | .ok result =>
              if result.success then .inl (.ret (some result), log2 ++ [WEv.invoke i])
              else
                match result.result with
                | none => .inl (.raise (.typeError "argument of type NoneType is not iterable"),
                                log2 ++ [WEv.invoke i])
                | some p =>
                  match Payload.lookup p "goBack" with
                  | some v =>
                    if v.truthy then .inl (.ret (some ⟨false, none⟩), log2 ++ [WEv.invoke i])
                    else .inr (pos, ar, panel, keyRest, log2 ++ [WEv.invoke i])
                  | none => .inr (pos, ar, panel, keyRest, log2 ++ [WEv.invoke i])
      else if key = TKey.tab then
        if ¬ cfg.tab_enabled then .inr (pos, ar, panel, keyRest, log)
        else
          match panel with
          | [] => .inl (.blocked, log)
          | .error e :: _ => .inl (.raise e, log)
          | .ok ar2 :: panelRest =>
            if ar2.success then .inl (.ret (some ar2), log)
            else .inr (Window.refreshPos cfg (Window.refreshPos cfg pos 0) 0, ar2,
                       panelRest, keyRest, log)
      else if key = TKey.up ∨ key = TKey.left then
        if key = TKey.up ∧ ¬ cfg.tab_enabled then
          match panel with
          | [] => .inl (.blocked, log ++ [WEv.panelNav (-1)])
          | .error e :: _ => .inl (.raise e, log ++ [WEv.panelNav (-1)])
          | .ok ar2 :: panelRest =>
            let log2 := log ++ [WEv.panelNav (-1)]
            if ar2.success then
              if cfg.numItems ≠ 0 then
                let um := Window.update_menu cfg cb pos ar2 log2
                .inl (.ret um.1, um.2)
              else .inl (.ret (some ar2), log2)
            else if ar2.hasKeyGuarded "direction" then
              match (ar2.getKey "direction").asInt with
              | .error e => .inl (.raise e, log2)
              | .ok d => .inr (Window.refreshPos cfg pos d, ar2, panelRest, keyRest, log2)
            else .inr (pos, ar2, panelRest, keyRest, log2)
        else .inr (Window.refreshPos cfg pos (-1), ar, panel, keyRest, log)
      else if key = TKey.down ∨ key = TKey.right then
        if key = TKey.down ∧ ¬ cfg.tab_enabled then
          match panel with
          | [] => .inl (.blocked, log ++ [WEv.panelNav 1])
          | .error e :: _ => .inl (.raise e, log ++ [WEv.panelNav 1])
          | .ok ar2 :: panelRest =>
            let log2 := log ++ [WEv.panelNav 1]
            if ar2.success then
              if cfg.numItems ≠ 0 then
                let um := Window.update_menu cfg cb pos ar2 log2
                .inl (.ret um.1, um.2)
              else .inl (.ret (some ar2), log2)
            else if ar2.hasKeyGuarded "direction" then
              match (ar2.getKey "direction").asInt with
              | .error e => .inl (.raise e, log2)
              | .ok d => .inr (Window.refreshPos cfg pos d, ar2, panelRest, keyRest, log2)
            else .inr (pos, ar2, panelRest, keyRest, log2)
        else .inr (Window.refreshPos cfg pos 1, ar, panel, keyRest, log)
      else .inr (pos, ar, panel, keyRest, log)

/-- The while-loop of Window.do_action, driven by fuel: one loopStep per
iteration. -/
def Window.doActionLoop (cfg : WinCfg) (cb : Nat → Nat → Except PyExc ActionResult) :
    Nat → Int → ActionResult → List (Except PyExc ActionResult) → List TKey →
    List WEv → LoopOut (Option ActionResult) × List WEv
  | 0, _, _, _, _, log => (.blocked, log)
  | fuel + 1, pos, ar, panel, keys, log =>
    match Window.loopStep cfg cb pos ar panel keys log with
    | .inl out => out
    | .inr (pos2, ar2, panel2, keys2, log2) =>
      Window.doActionLoop cfg cb fuel pos2 ar2 panel2 keys2 log2

/-- The body of Window.do_action (window.py lines 233-380) before the outer
exception handler: show the surfaces, require an action panel, run the
panel once, dispatch on its first result (goNext short-circuit, the
position != 0 discarded invocation, update_menu when there are items),
otherwise handle direction/goBack and enter the key loop. -/
def Window.doActionBody (cfg : WinCfg) (cb : Nat → Nat → Except PyExc ActionResult)
    (panel : List (Except PyExc ActionResult)) (keys : List TKey)
    (fuel : Nat) (pos0 : Int) : LoopOut (Option ActionResult) × List WEv :=
  let pos := Window.preamble cfg pos0
  if ¬ cfg.hasPanel then
    (.ret (some ⟨false, some [("error", .str "action_panel is not set")]⟩), [])
  else
    match panel with
    | [] => (.blocked, [])
    | .error e :: _ => (.raise e, [])
    | .ok ar :: panelRest =>
      if ar.success then
        if ar.truthyKey "goNext" then (.ret (some ⟨true, none⟩), [])
        else
          if pos ≠ 0 then
            match pyIndex cfg.numItems (pos - 1) with
            | .error e => (.raise e, [])
            | .ok i =>
              match cb i 0 with
              | .error e => (.raise e, [WEv.invoke i])
              | .ok _ =>
                if cfg.numItems ≠ 0 then
                  let um := Window.update_menu cfg cb pos ar [WEv.invoke i]
                  (.ret um.1, um.2)
                else (.ret (some ar), [WEv.invoke i])
          else
            if cfg.numItems ≠ 0 then
              let um := Window.update_menu cfg cb pos ar []
              (.ret um.1, um.2)
            else (.ret (some ar), [])
      else
        match
          (if ¬ cfg.tab_enabled ∧ ar.hasKeyGuarded "direction" then
             match (ar.getKey "direction").asInt with
             | .error e => Except.error e
             | .ok d => Except.ok (Window.refreshPos cfg pos d)
           else Except.ok pos : Except PyExc Int) with
        | .error e => (.raise e, [])
        | .ok pos2 =>
          if ar.truthyKey "goBack" then (.ret (some ar), [])
          else
            Window.doActionLoop cfg cb fuel (Window.refreshPos cfg pos2 0) ar
              panelRest keys []

/-- Window.do_action (window.py lines 223-384): the body plus the outer
try/except converting any exception to ActionResult(False, {error}). -/
def Window.do_action (cfg : WinCfg) (cb : Nat → Nat → Except PyExc ActionResult)
    (panel : List (Except PyExc ActionResult)) (keys : List TKey)
    (fuel : Nat) (pos0 : Int) : LoopOut (Option ActionResult) × List WEv :=
  match Window.doActionBody cfg cb panel keys fuel pos0 with
  | (.raise e, log) => (.ret (some ⟨false, some [("error", .str e.message)]⟩), log)
  | out => out

/-- C5: if the embedded action panel's do_action returns a success Outcome
whose payload contains a truthy goNext key, Window.do_action immediately
returns the success Outcome(true, None) without invoking any of the
Window's button-item callbacks (the event log stays empty). -/
theorem window_goNext_short_circuits (cfg : WinCfg)
    (cb : Nat → Nat → Except PyExc ActionResult)
    (panelRest : List (Except PyExc ActionResult)) (keys : List TKey)
    (fuel : Nat) (pos0 : Int) (ar : ActionResult)
    (hp : cfg.hasPanel = true) (hs : ar.success = true)
    (hg : ar.truthyKey "goNext" = true) :
    Window.do_action cfg cb (.ok ar :: panelRest) keys fuel pos0 =
      (.ret (some ⟨true, none⟩), []) := by
  unfold Window.do_action Window.doActionBody
  simp [hp, hs, hg]

theorem window_goNext_short_circuits_witness :
    Window.do_action ⟨true, true, false, false, 1, false, true⟩
        (fun _ _ => .ok ⟨true, none⟩)
        [.ok ⟨true, some [("goNext", .bool true)]⟩] [] 3 0 =
      (.ret (some ⟨true, none⟩), []) :=
  window_goNext_short_circuits ⟨true, true, false, false, 1, false, true⟩
    (fun _ _ => .ok ⟨true, none⟩) [] [] 3 0
    ⟨true, some [("goNext", .bool true)]⟩ rfl rfl rfl

/-- C4 counterexample: at a concrete loop state, Enter at the Back sentinel
(position 0) makes the key loop return ActionResult(False, None), whose
payload carries no goBack entry at all — contradicting the claim that a
goBack payload is propagated to the controller. -/
theorem window_enter_back_returns_no_goBack_payload :
    Window.doActionLoop ⟨true, false, true, false, 1, false, true⟩
        (fun _ _ => .ok ⟨false, none⟩) 1 0 ⟨false, none⟩ [] [TKey.enter] [] =
      (.ret (some ⟨false, none⟩), []) ∧
    ActionResult.truthyKey ⟨false, none⟩ "goBack" = false ∧
    ActionResult.hasKeyGuarded ⟨false, none⟩ "goBack" = false := by
  exact ⟨rfl, rfl, rfl⟩

/-- C4 amended: whenever Window.do_action's key loop receives Enter while
the Window's button position is 0 (the Back sentinel), it returns the
failure Outcome(false, None) — an empty payload, the bare failure itself
being the retreat signal the controller acts on — unconditionally, without
consulting any button callback (the event log is unchanged). -/
theorem window_enter_at_back_sentinel (cfg : WinCfg)
    (cb : Nat → Nat → Except PyExc ActionResult)
    (panel : List (Except PyExc ActionResult)) (keys : List TKey)
    (log : List WEv) (fuel : Nat) (ar : ActionResult)
    (hrt : cfg.read_text = false) (hf : ar.success = false) :
    Window.doActionLoop cfg cb (fuel + 1) 0 ar panel (TKey.enter :: keys) log =
      (.ret (some ⟨false, none⟩), log) := by
  unfold Window.doActionLoop Window.loopStep
  simp [hrt, hf]

theorem window_enter_at_back_sentinel_witness :
    Window.doActionLoop ⟨true, false, true, false, 2, false, true⟩
        (fun _ _ => .ok ⟨true, none⟩) 5 0 ⟨false, none⟩ [] [TKey.enter] [] =
      (.ret (some ⟨false, none⟩), []) :=
  window_enter_at_back_sentinel ⟨true, false, true, false, 2, false, true⟩
    (fun _ _ => .ok ⟨true, none⟩) [] [] [] 4 ⟨false, none⟩ rfl rfl

/-- C10 counterexample: at a concrete input the button callback is indeed
invoked twice, but the Window's Outcome is ActionResult(False, None) and
not the second invocation's result ActionResult(False, {goBack: True}) —
update_menu maps a failing callback with goBack to a fresh (False, None) —
so the claim's "whose result becomes the Window's Outcome" is false. -/
theorem window_double_invoke_outcome_differs :
    Window.do_action ⟨true, false, true, false, 1, false, true⟩
        (fun _ t => if t = 0 then .ok ⟨true, none⟩
                    else .ok ⟨false, some [("goBack", .bool true)]⟩)
        [.ok ⟨true, none⟩] [] 1 1 =
      (.ret (some ⟨false, none⟩), [WEv.invoke 0, WEv.invoke 0]) ∧
    (⟨false, none⟩ : ActionResult) ≠ ⟨false, some [("goBack", .bool true)]⟩ := by
  exact ⟨rfl, by decide⟩

/-- C10 amended: when the embedded panel's first result is a success
without goNext, the Window has button items and position != 0, the button
callback items[position-1][1] is invoked exactly twice — once directly in
do_action with the result discarded, and once inside update_menu; the
second invocation's result becomes the Window's Outcome when it is a
success, while a failing second result yields ActionResult(False, None) if
it carries a truthy goBack, an error outcome if its payload is None (the
goBack membership test raises TypeError), and Python None otherwise. -/
theorem window_button_callback_invoked_twice (cfg : WinCfg)
    (cb : Nat → Nat → Except PyExc ActionResult)
    (panelRest : List (Except PyExc ActionResult)) (keys : List TKey)
    (fuel : Nat) (pos0 : Int) (ar : ActionResult) (i : Nat) (r1 r2 : ActionResult)
    (hp : cfg.hasPanel = true) (hs : ar.success = true)
    (hg : ar.truthyKey "goNext" = false)
    (hpos : Window.preamble cfg pos0 ≠ 0)
    (hitems : cfg.numItems ≠ 0)
    (hidx : pyIndex cfg.numItems (Window.preamble cfg pos0 - 1) = .ok i)
    (hdisk : ar.hasKeyGuarded "diskIndex" = false)
    (hcb0 : cb i 0 = .ok r1) (hcb1 : cb i 1 = .ok r2) :
    Window.do_action cfg cb (.ok ar :: panelRest) keys fuel pos0 =
      (.ret (if r2.success then some r2
             else match r2.result with
               | none => some ⟨false, some [("error",
                   .str "argument of type NoneType is not iterable")]⟩
               | some p =>
                 match Payload.lookup p "goBack" with
                 | some v => if v.truthy then some ⟨false, none⟩ else none
                 | none => none),
       [WEv.invoke i, WEv.invoke i]) := by
  unfold Window.do_action Window.doActionBody Window.update_menu Window.updateMenuBody
  simp only [hp, hs, hg, hpos, hitems, hidx, hdisk, hcb0, hcb1, invokeCount]
  simp [hpos, hitems, hdisk, hg, hcb1]
  rcases r2 with ⟨s2, res2⟩
  cases s2
  · cases res2 with
    | none => simp [PyExc.message]
    | some p =>
        cases hgb : Payload.lookup p "goBack" with
        | none => simp [hgb]
        | some v => cases hv : v.truthy <;> simp [hgb, hv]
  · simp

theorem window_button_callback_invoked_twice_witness :
    Window.do_action ⟨true, false, true, false, 2, false, true⟩
        (fun _ t => if t = 0 then .ok ⟨true, none⟩ else .ok ⟨true, some [("x", .int 7)]⟩)
        [.ok ⟨true, none⟩] [] 2 2 =
      (.ret (some ⟨true, some [("x", .int 7)]⟩), [WEv.invoke 1, WEv.invoke 1]) :=
  window_button_callback_invoked_twice ⟨true, false, true, false, 2, false, true⟩
    (fun _ t => if t = 0 then .ok ⟨true, none⟩ else .ok ⟨true, some [("x", .int 7)]⟩)
    [] [] 2 2 ⟨true, none⟩ 1 ⟨true, none⟩ ⟨true, some [("x", .int 7)]⟩
    rfl rfl rfl (by decide) (by decide) rfl rfl rfl rfl

/-- C7: an exception raised inside a widget's or the Window's blocking
do_action loop never propagates out of do_action: each try/except wrapper
converts a raised exception e into the failure Outcome(false,
{error: str(e)}) carrying a descriptive error entry, and no do_action ever
yields a raise — so the wizard can retreat instead of crashing. -/
theorem do_action_converts_exceptions_to_error_outcome
    (mcfg : MenuCfg) (mh : Nat → MenuArg → Except PyExc ActionResult)
    (mfuel : Nat) (mr : MenuRun) (mkeys : List TKey)
    (tcfg : TPaneCfg) (th : Nat → Except PyExc ActionResult)
    (tfuel : Nat) (thead tmp : Int) (tkeys : List TKey)
    (wcfg : WinCfg) (wcb : Nat → Nat → Except PyExc ActionResult)
    (wpanel : List (Except PyExc ActionResult)) (wkeys : List TKey)
    (wfuel : Nat) (wpos : Int) :
    (∀ e log, Menu.doActionLoop mcfg mh mfuel mr mkeys [] = (.raise e, log) →
        Menu.do_action mcfg mh mfuel mr mkeys =
          (.ret ⟨false, some [("error", .str e.message)]⟩, log)) ∧
    (∀ e log, Menu.do_action mcfg mh mfuel mr mkeys ≠ (.raise e, log)) ∧
    (∀ e, TextPane.doActionLoop tcfg th tfuel thead tmp tkeys = .raise e →
        TextPane.do_action tcfg th tfuel thead tmp tkeys =
          .ret ⟨false, some [("error", .str e.message)]⟩) ∧
    (∀ e, TextPane.do_action tcfg th tfuel thead tmp tkeys ≠ .raise e) ∧
    (∀ e log, Window.doActionBody wcfg wcb wpanel wkeys wfuel wpos = (.raise e, log) →
        Window.do_action wcfg wcb wpanel wkeys wfuel wpos =
          (.ret (some ⟨false, some [("error", .str e.message)]⟩), log)) ∧
    (∀ e log, Window.do_action wcfg wcb wpanel wkeys wfuel wpos ≠ (.raise e, log)) := by
  refine ⟨?_, ?_, ?_, ?_, ?_, ?_⟩
  · intro e log h
    unfold Menu.do_action
    rw [h]
  · intro e log
    unfold Menu.do_action
    rcases hL : Menu.doActionLoop mcfg mh mfuel mr mkeys [] with ⟨out, l⟩
    cases out <;> simp
  · intro e h
    unfold TextPane.do_action
    rw [h]
  · intro e
    unfold TextPane.do_action
    cases TextPane.doActionLoop tcfg th tfuel thead tmp tkeys <;> simp
  · intro e log h
    unfold Window.do_action
    rw [h]
  · intro e log
    unfold Window.do_action
    rcases hL : Window.doActionBody wcfg wcb wpanel wkeys wfuel wpos with ⟨out, l⟩
    cases out <;> simp

theorem do_action_converts_exceptions_to_error_outcome_witness :
    Menu.do_action ⟨1, 1, false, true, true, false⟩
        (fun _ _ => .error (.typeError "menu handler boom")) 1 ⟨⟨0, 0⟩, []⟩ [TKey.enter] =
      (.ret ⟨false, some [("error", .str "menu handler boom")]⟩,
       [(0, MenuArg.itemPayload 0)]) ∧
    TextPane.do_action ⟨1, 1, false, 1⟩
        (fun _ => .error (.typeError "pane handler boom")) 1 0 0 [TKey.enter] =
      .ret ⟨false, some [("error", .str "pane handler boom")]⟩ ∧
    Window.do_action ⟨true, false, true, false, 1, false, true⟩
        (fun _ _ => .ok ⟨true, none⟩) [.error (.typeError "panel boom")] [] 1 0 =
      (.ret (some ⟨false, some [("error", .str "panel boom")]⟩), []) := by
  have h := do_action_converts_exceptions_to_error_outcome
    ⟨1, 1, false, true, true, false⟩ (fun _ _ => .error (.typeError "menu handler boom"))
    1 ⟨⟨0, 0⟩, []⟩ [TKey.enter]
    ⟨1, 1, false, 1⟩ (fun _ => .error (.typeError "pane handler boom")) 1 0 0 [TKey.enter]
    ⟨true, false, true, false, 1, false, true⟩ (fun _ _ => .ok ⟨true, none⟩)
    [.error (.typeError "panel boom")] [] 1 0
  exact ⟨h.1 _ _ rfl, h.2.2.1 _ rfl, h.2.2.2.2.1 _ _ rfl⟩
